import Mathlib

/-!
Shallow embedding of the mechanic_service_api repository: a Flask CRUD
service with two resources (Mechanic, ServiceTicket) and a many-to-many
assignment relation stored in the `ticket_mechanic` join table.

The embedding follows the source files:
  - app/models.py                            (data model, join table)
  - app/blueprints/mechanic/routes.py        (mechanic handlers)
  - app/blueprints/mechanic/schemas.py       (MechanicSchema)
  - app/blueprints/service_ticket/routes.py  (service ticket handlers)
  - app/blueprints/service_ticket/schemas.py (ServiceTicketSchema)

Handlers are state transformers on an explicit relational state `DB`,
returning `Except` of a response (status code plus JSON body) and the
post state, where the error case models an exception escaping the
handler boundary.  Two levels are embedded.  The storage-level model
(`create_mechanic`, `get_mechanics`, `assign_mechanic`,
`remove_mechanic`) gives the handler its database semantics, including
the unique constraint on `Mechanic.email` (models.py, `unique=True`)
enforced at commit.  The source-exact model (`create_ticket_src`,
`update_ticket_src`, the name-binding tables) captures what the
configured code does on a request: both schemas set
`load_instance = True`, so `schema.load` either raises ValueError (no
session is wired into the schemas) or returns a model instance on which
the routes' dict-style uses (`Model(**data)`, `data.items()`) raise
TypeError/AttributeError — the create/update success paths are
unreachable — and the mechanic route decorators dereference a name the
module never binds (`mechanics_bp` vs the bound `mechancis_bp`), so the
mechanic handlers never register at all.
-/

/-- JSON values, as produced by flask jsonify / marshmallow dump. -/
inductive Json where
  | num (n : Nat)
  | str (s : String)
  | arr (xs : List Json)
  | obj (fields : List (String × Json))

/-- Row of the `mechanic` table (models.py): id primary key,
name String(255) not null, email String(360) not null unique. -/
structure Mechanic where
  id : Nat
  name : String
  email : String
deriving DecidableEq, Repr

/-- Row of the `service_ticket` table (models.py): id primary key,
description String(300) not null, status with column default "open". -/
structure ServiceTicket where
  id : Nat
  description : String
  status : String
deriving DecidableEq, Repr

/-- Relational state: the two entity tables, the `ticket_mechanic`
association table as a list of (ticket_id, mechanic_id) rows (the join
table has no uniqueness constraint, so duplicate rows are representable),
and the autoincrement counters for the two primary keys. -/
structure DB where
  mechanics : List Mechanic
  tickets : List ServiceTicket
  assignments : List (Nat × Nat)
  nextMechanicId : Nat
  nextTicketId : Nat
deriving DecidableEq, Repr

/-- Storage-layer integrity error of the unique Mechanic.email
constraint, raised by db.session.commit() in the storage-level model. -/
inductive DBErr where
  | integrityError
deriving DecidableEq, Repr

/-- HTTP response: status code and JSON body. -/
structure HResp where
  status : Nat
  body : Json

/-- db.session.get(Mechanic, mechanic_id). -/
def findMechanic (db : DB) (mid : Nat) : Option Mechanic :=
  db.mechanics.find? (fun m => m.id == mid)

/-- db.session.get(ServiceTicket, ticket_id). -/
def findTicket (db : DB) (tid : Nat) : Option ServiceTicket :=
  db.tickets.find? (fun t => t.id == tid)

/-- The ids of the mechanics in ticket.mechanics: duplicates and order
come straight from the association rows. -/
def ticketMechanicIds (db : DB) (t : ServiceTicket) : List Nat :=
  (db.assignments.filter (fun a => a.1 == t.id)).map (fun a => a.2)

/-- Dump through MechanicSchema (schemas.py): SQLAlchemyAutoSchema on
Mechanic without include_relationships, so only the three columns are
serialized and the tickets relationship is absent from the output. -/
def serializeMechanic (m : Mechanic) : Json :=
  .obj [("id", .num m.id), ("name", .str m.name), ("email", .str m.email)]

/-- Dump through ServiceTicketSchema (schemas.py): SQLAlchemyAutoSchema
on ServiceTicket with include_relationships = True, so the mechanics
relationship is serialized as the list of related primary keys. -/
def serializeTicket (db : DB) (t : ServiceTicket) : Json :=
  .obj [("id", .num t.id), ("description", .str t.description),
        ("status", .str t.status),
        ("mechanics", .arr ((ticketMechanicIds db t).map Json.num))]

/-- Not-found body {"error": msg}. -/
def errorJson (msg : String) : Json :=
  .obj [("error", .str msg)]

/-- Validation error report: field name to list of messages, as in
marshmallow ValidationError.messages jsonified. -/
def errsJson (errs : List (String × List String)) : Json :=
  .obj (errs.map (fun e => (e.1, .arr (e.2.map Json.str))))

/-- Inbound JSON payload for a mechanic: the two loadable columns of
MechanicSchema (id is not required, the pk is autoincrement; the tickets
relationship is not a field since include_relationships defaults to
False). -/
structure MechanicPayload where
  name : Option String
  email : Option String
deriving DecidableEq, Repr

/-- Inbound JSON payload for a service ticket: description and status,
the loadable columns of ServiceTicketSchema. -/
structure TicketPayload where
  description : Option String
  status : Option String
deriving DecidableEq, Repr

/-- Marshmallow validation of one string field: required when the column
is not nullable and has no default, with a Length(max=n) validator taken
from the column type. -/
def fieldErrors (fname : String) (v : Option String) (maxLen : Nat) :
    List (String × List String) :=
  match v with
  | none => [(fname, ["Missing data for required field."])]
  | some s =>
      if s.length > maxLen then
        [(fname, ["Longer than maximum length " ++ toString maxLen ++ "."])]
      else []

/-- Field errors of mechanic_schema.load: name required, max 255;
email required, max 360 (models.py column definitions). -/
def mechanicLoadErrors (p : MechanicPayload) : List (String × List String) :=
  fieldErrors "name" p.name 255 ++ fieldErrors "email" p.email 360

/-- Field errors of service_ticket_schema.load: description required,
max 300; status optional (column default) and unconstrained. -/
def ticketLoadErrors (p : TicketPayload) : List (String × List String) :=
  fieldErrors "description" p.description 300

/-- Field-validation outcome of mechanic_schema.load: the error branch
is the ValidationError report (name and email required, with the column
length bounds), the ok branch the validated field data that the
post_load step consumes.  With load_instance = True the library then
wraps this in instance construction; the storage-level create_mechanic
uses the validated data directly. -/
def loadMechanic (p : MechanicPayload) :
    Except (List (String × List String)) (String × String) :=
  match p.name, p.email with
  | some n, some e =>
      if (mechanicLoadErrors p).isEmpty then .ok (n, e)
      else .error (mechanicLoadErrors p)
  | _, _ => .error (mechanicLoadErrors p)

/-- Field-validation outcome of service_ticket_schema.load: description
required with its length bound, status optional (column default) and
unconstrained; the ok branch carries the validated data (an omitted
status is simply absent from it).  The source-exact handlers account
for what the configured load_instance = True then does with it. -/
def loadTicket (p : TicketPayload) :
    Except (List (String × List String)) (String × Option String) :=
  match p.description with
  | some d =>
      if (ticketLoadErrors p).isEmpty then .ok (d, p.status)
      else .error (ticketLoadErrors p)
  | none => .error (ticketLoadErrors p)

/-- POST /mechanics/ (create_mechanic) at storage level: load payload,
on ValidationError return messages with 400; otherwise insert a new
Mechanic and commit, where the commit raises the integrity error of the
unique email constraint when another stored mechanic already has that
email, uncaught by the route.  In the configured source even this
success path is cut off earlier (the decorators never register and
Mechanic(**data) on a loaded instance raises TypeError), which only
fails sooner: under no behavior does a duplicate-email create insert a
record. -/
def create_mechanic (db : DB) (p : MechanicPayload) :
    Except DBErr (HResp × DB) :=
  match loadMechanic p with
  | .error errs => .ok (⟨400, errsJson errs⟩, db)
  | .ok (n, e) =>
      if db.mechanics.any (fun m => m.email == e) then
        .error .integrityError
      else
        let m : Mechanic := ⟨db.nextMechanicId, n, e⟩
        let db2 : DB := { db with
          mechanics := db.mechanics ++ [m],
          nextMechanicId := db.nextMechanicId + 1 }
        .ok (⟨201, serializeMechanic m⟩, db2)

/-- GET /mechanics/ (get_mechanics): serialize all mechanics. -/
def get_mechanics (db : DB) : Except DBErr (HResp × DB) :=
  .ok (⟨200, .arr (db.mechanics.map serializeMechanic)⟩, db)

/-- PUT /service-tickets/{ticket_id}/assign-mechanic/{mechanic_id}
(assign_mechanic): the ticket is looked up first, then the mechanic;
404 naming the absent one.  When both exist the mechanic is appended to
ticket.mechanics and committed — no duplicate check, a second assignment
adds a second association row. -/
def assign_mechanic (db : DB) (tid mid : Nat) : Except DBErr (HResp × DB) :=
  match findTicket db tid with
  | none => .ok (⟨404, errorJson "Service ticket not found."⟩, db)
  | some t =>
      match findMechanic db mid with
      | none => .ok (⟨404, errorJson "Mechanic not found."⟩, db)
      | some _ =>
          let db2 : DB := { db with
            assignments := db.assignments ++ [(tid, mid)] }
          .ok (⟨200, serializeTicket db2 t⟩, db2)

/-- PUT /service-tickets/{ticket_id}/remove-mechanic/{mechanic_id}
(remove_mechanic): both looked up, ticket first, 404 when absent.  When
the mechanic is in ticket.mechanics the assignment is removed and
committed; otherwise nothing is mutated and the unchanged ticket is
still returned with 200.  The assigned branch erases one (tid, mid) row
while the flush of the ORM collection removal deletes every duplicate
pair row from the secondary table; the two differ only on
duplicate-row states, which the not-assigned branch never touches. -/
def remove_mechanic (db : DB) (tid mid : Nat) : Except DBErr (HResp × DB) :=
  match findTicket db tid with
  | none => .ok (⟨404, errorJson "Service ticket not found."⟩, db)
  | some t =>
      match findMechanic db mid with
      | none => .ok (⟨404, errorJson "Mechanic not found."⟩, db)
      | some _ =>
          if (tid, mid) ∈ db.assignments then
            let db2 : DB := { db with
              assignments := db.assignments.erase (tid, mid) }
            .ok (⟨200, serializeTicket db2 t⟩, db2)
          else
            .ok (⟨200, serializeTicket db t⟩, db)

/-- State observed after a handler ran: on an escaping exception the
transaction was not committed, so the stored state is the old one. -/
def stateAfter (db : DB) (r : Except DBErr (HResp × DB)) : DB :=
  match r with
  | .ok (_, db2) => db2
  | .error _ => db

/-- One registered route: URL rule relative to the blueprint url base,
HTTP methods, and the handler (endpoint) name. -/
structure Route where
  rule : String
  methods : List String
  endpoint : String
deriving DecidableEq, Repr

/-- The route declarations written by the decorators in
app/blueprints/mechanic/routes.py (blueprint mounted at /mechanics by
app/__init__.py).  The decorator of update_mechanic declares
methods = ["GET"], on the same rule as get_mechanic.  These decorators
dereference the unbound name in mechanicDecoratorBlueprint, so the
declarations never take effect at the routing layer. -/
def mechanicRoutes : List Route :=
  [⟨"/", ["POST"], "create_mechanic"⟩,
   ⟨"/", ["GET"], "get_mechanics"⟩,
   ⟨"/<int:mechanic_id>", ["GET"], "get_mechanic"⟩,
   ⟨"/<int:mechanic_id>", ["GET"], "update_mechanic"⟩,
   ⟨"/<int:mechanic_id>", ["DELETE"], "delete_mechanic"⟩]

/-- The routes registered on the service_ticket blueprint
(app/blueprints/service_ticket/routes.py), mounted at /service-tickets
(app/__init__.py). -/
def serviceTicketRoutes : List Route :=
  [⟨"/", ["POST"], "create_ticket"⟩,
   ⟨"/", ["GET"], "get_tickets"⟩,
   ⟨"/<int:ticket_id>", ["GET"], "get_ticket"⟩,
   ⟨"/<int:ticket_id>", ["PUT"], "update_ticket"⟩,
   ⟨"/<int:ticket_id>", ["DELETE"], "delete_ticket"⟩,
   ⟨"/<int:ticket_id>/assign-mechanic/<int:mechanic_id>", ["PUT"], "assign_mechanic"⟩,
   ⟨"/<int:ticket_id>/remove-mechanic/<int:mechanic_id>", ["PUT"], "remove_mechanic"⟩]

/-- Top-level keys of a JSON object. -/
def jsonKeys : Json → List String
  | .obj fields => fields.map (fun f => f.1)
  | _ => []

/-- Python exception kinds the live handlers raise uncaught with the
configuration in the source (schemas set load_instance = True with no
sqla_session, and the routes treat the loaded result as a dict). -/
inductive PyExc where
  | valueError
  | typeError
  | attributeError
deriving DecidableEq, Repr

/-- True when a live handler returned a response rather than letting a
Python exception escape the handler boundary. -/
def returnsResponseSrc (r : Except PyExc (HResp × DB)) : Bool :=
  match r with
  | .ok _ => true
  | .error _ => false

/-- State observed after a live handler ran: every escaping exception
fires before any session commit, so nothing was mutated. -/
def stateAfterSrc (db : DB) (r : Except PyExc (HResp × DB)) : DB :=
  match r with
  | .ok (_, db2) => db2
  | .error _ => db

/-- POST /service-tickets/ exactly as the configured source behaves
(service_ticket/routes.py lines 10-20, schemas.py load_instance = True).
Without a session wired into the schema (create_app sets no
sqla_session), service_ticket_schema.load raises
ValueError before validating, and the route only catches marshmallow
ValidationError, so the ValueError escapes.  With a session, field
validation runs (the 400 report branch), but a valid payload makes load
return a ServiceTicket instance, and ServiceTicket(**data) on line 17
raises TypeError because the instance is not a mapping.  Either way no
ticket is ever inserted. -/
def create_ticket_src (sessionWired : Bool) (db : DB) (p : TicketPayload) :
    Except PyExc (HResp × DB) :=
  if !sessionWired then .error .valueError
  else
    match loadTicket p with
    | .error errs => .ok (⟨400, errsJson errs⟩, db)
    | .ok _ => .error .typeError

/-- PUT /service-tickets/{id} exactly as the configured source behaves
(service_ticket/routes.py lines 38-53): the 404 branch fires before the
load; after it, schema.load raises ValueError without a wired session,
and with one a valid payload loads to a ServiceTicket instance on which
data.items() on line 49 raises AttributeError — the overwrite-commit
path is unreachable. -/
def update_ticket_src (sessionWired : Bool) (db : DB) (tid : Nat)
    (p : TicketPayload) : Except PyExc (HResp × DB) :=
  match findTicket db tid with
  | none => .ok (⟨404, errorJson "Service ticket not found."⟩, db)
  | some _ =>
      if !sessionWired then .error .valueError
      else
        match loadTicket p with
        | .error errs => .ok (⟨400, errsJson errs⟩, db)
        | .ok _ => .error .attributeError

/-- Names bound at module level of app/blueprints/mechanic/routes.py:
the imports of lines 1-6, the assignment of line 8 — which spells the
blueprint variable mechancis_bp — and the five handler functions. -/
def mechanicModuleBindings : List String :=
  ["Blueprint", "request", "jsonify", "db", "Mechanic", "mechanic_schema",
   "mechanics_schema", "ValidationError", "select", "mechancis_bp",
   "create_mechanic", "get_mechanics", "get_mechanic", "update_mechanic",
   "delete_mechanic"]

/-- The variable every route decorator of that module dereferences
(mechanic/routes.py lines 11, 25, 31, 38, 57). -/
def mechanicDecoratorBlueprint : String := "mechanics_bp"

/-- Module the mechanic routes import their db handle from
(mechanic/routes.py line 2). -/
def mechanicRoutesDbModule : String := "app.extensions"

/-- Module whose db object create_app passes to init_app
(app/__init__.py imports db from app.models). -/
def initializedDbModule : String := "app.models"

theorem loadMechanic_ok_fields (p : MechanicPayload) (n e : String)
    (h : loadMechanic p = .ok (n, e)) : p.name = some n ∧ p.email = some e := by
  cases hn : p.name with
  | none => simp [loadMechanic, hn] at h
  | some n0 =>
    cases he : p.email with
    | none => simp [loadMechanic, hn, he] at h
    | some e0 =>
      simp only [loadMechanic, hn, he] at h
      split at h
      · cases h
        exact ⟨rfl, rfl⟩
      · cases h

/-- C10: the serialized wire representation of a Mechanic never includes
its tickets relationship (MechanicSchema is configured without
include_relationships), while the serialized representation of a
ServiceTicket always includes its mechanics relationship
(ServiceTicketSchema sets include_relationships = True). -/
theorem serialization_relationship_asymmetry
    (m : Mechanic) (db : DB) (t : ServiceTicket) :
    jsonKeys (serializeMechanic m) = ["id", "name", "email"] ∧
    "tickets" ∉ jsonKeys (serializeMechanic m) ∧
    "mechanics" ∈ jsonKeys (serializeTicket db t) ∧
    jsonKeys (serializeTicket db t) = ["id", "description", "status", "mechanics"] := by
  refine ⟨rfl, ?_, ?_, rfl⟩ <;> simp [serializeMechanic, serializeTicket, jsonKeys]

/-- C7 evidence: the decorator of update_mechanic registers it with
HTTP method GET, not PUT; no route of the mechanic blueprint carries
PUT at all, while update_ticket is registered under PUT. -/
theorem update_mechanic_registered_under_get :
    ((mechanicRoutes.filter (fun r => r.endpoint == "update_mechanic")).map
        Route.methods = [["GET"]]) ∧
    mechanicRoutes.all (fun r => !(r.methods.contains "PUT")) = true ∧
    ((serviceTicketRoutes.filter (fun r => r.endpoint == "update_ticket")).map
        Route.methods = [["PUT"]]) := by
  refine ⟨rfl, ?_, rfl⟩
  decide

/-- C3: removing a mechanic that exists but is not currently assigned to
an existing ticket mutates nothing and still returns the unchanged
serialized ticket with status 200. -/
theorem remove_unassigned_mechanic_noop_success
    (db : DB) (tid mid : Nat) (t : ServiceTicket) (m : Mechanic)
    (ht : findTicket db tid = some t) (hm : findMechanic db mid = some m)
    (hna : (tid, mid) ∉ db.assignments) :
    remove_mechanic db tid mid = .ok (⟨200, serializeTicket db t⟩, db) := by
  simp [remove_mechanic, ht, hm, hna]

/-- Concrete storage state used by the witnesses and the concrete
evaluations: one mechanic, one ticket, no assignments. -/
def exDb : DB :=
  ⟨[⟨1, "Jo", "jo@x.com"⟩], [⟨1, "brake repair", "open"⟩], [], 2, 2⟩

/-- Witness for C3 at the concrete state: removing the unassigned
mechanic 1 from ticket 1 succeeds with the unchanged state. -/
theorem remove_unassigned_mechanic_noop_success_witness :
    remove_mechanic exDb 1 1
      = .ok (⟨200, serializeTicket exDb ⟨1, "brake repair", "open"⟩⟩, exDb) :=
  remove_unassigned_mechanic_noop_success exDb 1 1 ⟨1, "brake repair", "open"⟩
    ⟨1, "Jo", "jo@x.com"⟩ rfl rfl (by decide)

/-- C4: assign_mechanic checks the ticket before the mechanic (when the
ticket is absent the error names the ticket regardless of the mechanic);
when both exist it appends a (ticket_id, mechanic_id) row and commits,
with no duplicate check, so re-assigning an already assigned mechanic
succeeds and increases the multiplicity of the association row. -/
theorem assign_mechanic_order_and_duplicate_rows
    (db : DB) (tid mid : Nat) (t : ServiceTicket) (m : Mechanic)
    (ht : findTicket db tid = some t) (hm : findMechanic db mid = some m) :
    (∀ tid2 mid2, findTicket db tid2 = none →
      assign_mechanic db tid2 mid2
        = .ok (⟨404, errorJson "Service ticket not found."⟩, db)) ∧
    assign_mechanic db tid mid
      = .ok (⟨200, serializeTicket
            { db with assignments := db.assignments ++ [(tid, mid)] } t⟩,
          { db with assignments := db.assignments ++ [(tid, mid)] }) ∧
    (stateAfter db (assign_mechanic db tid mid)).assignments.count (tid, mid)
      = db.assignments.count (tid, mid) + 1 := by
  refine ⟨?_, ?_, ?_⟩
  · intro tid2 mid2 ht2
    simp [assign_mechanic, ht2]
  · simp [assign_mechanic, ht, hm]
  · simp [assign_mechanic, ht, hm, stateAfter, List.count_append]

/-- Witness for C4 at the concrete state: assigning mechanic 1 to
ticket 1 leaves the association row (1, 1) with multiplicity one more
than before. -/
theorem assign_mechanic_order_and_duplicate_rows_witness :
    (stateAfter exDb (assign_mechanic exDb 1 1)).assignments.count (1, 1)
      = exDb.assignments.count (1, 1) + 1 :=
  (assign_mechanic_order_and_duplicate_rows exDb 1 1 ⟨1, "brake repair", "open"⟩
    ⟨1, "Jo", "jo@x.com"⟩ rfl rfl).2.2

/-- C2: creating a mechanic whose payload email equals the email of a
stored mechanic never succeeds silently — the handler either returns the
400 validation report (payload otherwise invalid) or the commit raises
the unique email integrity error — and in every case the stored state,
hence the List() result, is unchanged. -/
theorem duplicate_email_create_adds_no_record
    (db : DB) (p : MechanicPayload) (m : Mechanic)
    (hm : m ∈ db.mechanics) (he : p.email = some m.email) :
    stateAfter db (create_mechanic db p) = db ∧
    (∀ r db2, create_mechanic db p = .ok (r, db2) → r.status = 400 ∧ db2 = db) ∧
    get_mechanics (stateAfter db (create_mechanic db p)) = get_mechanics db := by
  have key : stateAfter db (create_mechanic db p) = db ∧
      (∀ r db2, create_mechanic db p = .ok (r, db2) → r.status = 400 ∧ db2 = db) := by
    cases hl : loadMechanic p with
    | error errs =>
        refine ⟨by simp [create_mechanic, hl, stateAfter], ?_⟩
        intro r db2 h
        simp only [create_mechanic, hl] at h
        obtain ⟨h1, h2⟩ := Prod.mk.injEq .. ▸ Except.ok.inj h
        exact ⟨by rw [← h1], h2.symm⟩
    | ok v =>
        obtain ⟨n, e⟩ := v
        have hfields := loadMechanic_ok_fields p n e hl
        have hee : m.email = e := by
          rw [hfields.2] at he
          exact (Option.some.inj he).symm
        have hany : db.mechanics.any (fun x => x.email == e) = true := by
          rw [List.any_eq_true]
          exact ⟨m, hm, by simp [hee]⟩
        refine ⟨by simp [create_mechanic, hl, hany, stateAfter], ?_⟩
        intro r db2 h
        simp [create_mechanic, hl, hany] at h
  exact ⟨key.1, key.2, by rw [key.1]⟩

/-- Witness for C2 at the concrete state: creating a second mechanic
with the stored email jo@x.com leaves the stored state unchanged. -/
theorem duplicate_email_create_adds_no_record_witness :
    stateAfter exDb (create_mechanic exDb ⟨some "Bob", some "jo@x.com"⟩) = exDb :=
  (duplicate_email_create_adds_no_record exDb ⟨some "Bob", some "jo@x.com"⟩
    ⟨1, "Jo", "jo@x.com"⟩ (by simp [exDb]) rfl).1

/-- C1 evidence of the defect: the blueprint variable every mechanic
route decorator dereferences is never bound in the module — line 8
binds the misspelled mechancis_bp instead — so the mechanic
Get/Update/Delete handlers never register and their JSON 404 branch is
unreachable; the db handle those handlers would use is imported from a
module whose db object create_app never initializes. -/
theorem mechanic_routes_never_register :
    mechanicDecoratorBlueprint ∉ mechanicModuleBindings ∧
    "mechancis_bp" ∈ mechanicModuleBindings ∧
    mechanicRoutesDbModule ≠ initializedDbModule := by
  refine ⟨?_, ?_, ?_⟩ <;> decide

/-- C8 evidence of the defect: delete_mechanic is one of the handlers
declared through the unbound blueprint variable, so the delete endpoint
never registers and the claimed post-delete observations cannot occur;
its storage handle also comes from the module whose db is never
initialized. -/
theorem delete_mechanic_endpoint_unreachable :
    "delete_mechanic" ∈ mechanicRoutes.map Route.endpoint ∧
    mechanicDecoratorBlueprint ∉ mechanicModuleBindings ∧
    mechanicRoutesDbModule ≠ initializedDbModule := by
  refine ⟨?_, ?_, ?_⟩ <;> decide

/-- C9 evidence of the defect: at the concrete state, the schema-valid
payload with description "brake repair" and no status makes the
configured create_ticket raise TypeError (session wired:
ServiceTicket(**data) on the loaded instance) or ValueError (no
session), and the stored state is unchanged — no ticket with any status
is ever created, so no status ever defaults to "open". -/
theorem create_ticket_raises_instead_of_creating :
    create_ticket_src true exDb ⟨some "brake repair", none⟩
      = .error PyExc.typeError ∧
    create_ticket_src false exDb ⟨some "brake repair", none⟩
      = .error PyExc.valueError ∧
    stateAfterSrc exDb
        (create_ticket_src true exDb ⟨some "brake repair", none⟩) = exDb ∧
    stateAfterSrc exDb
        (create_ticket_src false exDb ⟨some "brake repair", none⟩) = exDb := by
  refine ⟨rfl, rfl, rfl, rfl⟩

/-- C5 evidence of the defect: at the concrete state with ticket 1
present, a whole-record update payload makes the configured
update_ticket raise AttributeError (data.items() on the loaded
instance) or ValueError (no session) instead of overwriting and
returning 200, and the mechanic update handler is declared through the
unbound blueprint variable so it never registers at all. -/
theorem update_success_path_unreachable :
    update_ticket_src true exDb 1 ⟨some "tire rotation", some "closed"⟩
      = .error PyExc.attributeError ∧
    update_ticket_src false exDb 1 ⟨some "tire rotation", some "closed"⟩
      = .error PyExc.valueError ∧
    mechanicDecoratorBlueprint ∉ mechanicModuleBindings := by
  refine ⟨rfl, rfl, ?_⟩
  decide

/-- C6 evidence of the defect: schema-valid create and update requests
on the live ticket resource raise uncaught Python exceptions past the
handler boundary under either session configuration, so the handlers do
not always return a response. -/
theorem valid_payloads_raise_past_handler :
    returnsResponseSrc (create_ticket_src true exDb ⟨some "tune up", none⟩)
      = false ∧
    returnsResponseSrc (create_ticket_src false exDb ⟨some "tune up", none⟩)
      = false ∧
    returnsResponseSrc
        (update_ticket_src true exDb 1 ⟨some "tune up", none⟩) = false ∧
    returnsResponseSrc
        (update_ticket_src false exDb 1 ⟨some "tune up", none⟩) = false := by
  refine ⟨rfl, rfl, rfl, rfl⟩
